import Mathlib

/-!
Shallow embedding of the per-tenant knowledge-base lifecycle manager and the
document-ingestion state machine of the ai-ppt-generator backend
(src/backend/lambda_functions/knowledge_base_manager.py and
src/backend/lambda_functions/document_processor.py).

DynamoDB tables are modelled as association lists keyed by their primary key
(user_id for the user KB table, document_id for the documents table); the S3
documents bucket is modelled as the list of object keys present; every
start_ingestion_job call made against the provider is recorded in an audit
list jobRequests.  External calls that can fail (S3 delete, DynamoDB delete,
bedrock start_ingestion_job, the copy step of pending-document migration) are
driven by explicit environment records so that each failure mode named by the
spec can be exercised.  Timestamps, file sizes, content types and log output
are omitted: no verified property mentions them.
-/

/-- A record of the user knowledge-base table (one per user, keyed by
user_id), as stored by KnowledgeBaseManager._create_user_kb step 6. -/
structure UserKbRecord where
  user_id : String
  knowledge_base_id : String
  data_source_id : String
  vector_bucket_name : String
  user_hash : String
  document_count : Int
  status : String
  deriving Repr, DecidableEq

/-- A record of the documents table (one per uploaded document, keyed by
document_id).  The message field is the user-facing status message the code
stores under the DynamoDB attribute named message; error_message is the
attribute named error_message. -/
structure DocumentRecord where
  document_id : String
  user_id : String
  s3_key : String
  filename : String
  sync_status : String
  ingestion_job_id : Option String
  knowledge_base_id : Option String
  data_source_id : Option String
  message : String
  error_message : String
  deriving Repr, DecidableEq

/-- An ingestion job summary as returned by the provider
(bedrock_agent.list_ingestion_jobs).  failureReasons is provider data that
check_ingestion_status never reads; it is carried here so that theorems can
compare what the code stores against what the provider reported. -/
structure IngestionJob where
  ingestionJobId : String
  status : String
  failureReasons : List String
  deriving Repr, DecidableEq

/-- One start_ingestion_job call made against the provider. -/
structure JobRequest where
  knowledge_base_id : String
  data_source_id : String
  description : String
  deriving Repr, DecidableEq

/-- The system state threaded through the operations: the two DynamoDB
tables, the set of S3 object keys in the shared documents bucket, and the
audit trail of ingestion-job requests issued to the provider. -/
structure Sys where
  userKbTable : List UserKbRecord
  documentsTable : List DocumentRecord
  s3Keys : List String
  jobRequests : List JobRequest
  deriving Repr, DecidableEq

/-- DynamoDB get_item on the documents table. -/
def getDoc (tbl : List DocumentRecord) (id : String) : Option DocumentRecord :=
  tbl.find? (fun d => d.document_id == id)

/-- DynamoDB update_item on the documents table (update of an existing item;
an update targeting an absent key is a no-op in this model). -/
def updateDoc (tbl : List DocumentRecord) (id : String)
    (f : DocumentRecord → DocumentRecord) : List DocumentRecord :=
  tbl.map (fun d => if d.document_id == id then f d else d)

/-- DynamoDB delete_item on the documents table. -/
def removeDoc (tbl : List DocumentRecord) (id : String) : List DocumentRecord :=
  tbl.filter (fun d => d.document_id != id)

/-- DynamoDB put_item on the documents table (replaces any item with the
same key). -/
def putDoc (tbl : List DocumentRecord) (d : DocumentRecord) : List DocumentRecord :=
  d :: tbl.filter (fun x => x.document_id != d.document_id)

/-- DynamoDB get_item on the user KB table. -/
def getUserKb (tbl : List UserKbRecord) (uid : String) : Option UserKbRecord :=
  tbl.find? (fun r => r.user_id == uid)

/-- DynamoDB put_item on the user KB table. -/
def putUserKb (tbl : List UserKbRecord) (r : UserKbRecord) : List UserKbRecord :=
  r :: tbl.filter (fun x => x.user_id != r.user_id)

/-- DynamoDB delete_item on the user KB table
(KnowledgeBaseManager._remove_user_kb_from_db). -/
def removeUserKb (tbl : List UserKbRecord) (uid : String) : List UserKbRecord :=
  tbl.filter (fun x => x.user_id != uid)

/-- DynamoDB ADD document_count :n on the user KB table. -/
def addDocumentCount (tbl : List UserKbRecord) (uid : String) (n : Int) :
    List UserKbRecord :=
  tbl.map (fun r =>
    if r.user_id == uid then { r with document_count := r.document_count + n } else r)

/-- Prefix test on strings (the semantics of an S3 list_objects_v2 Prefix
filter), implemented over the character lists so that it evaluates by
kernel reduction. -/
def strStartsWith (s pre : String) : Bool :=
  pre.data.isPrefixOf s.data

/-- Splitting a character list at every slash (the semantics of the Python
str.split of the source on the separator /). -/
def splitCharsAux : List Char → List Char → List (List Char)
  | [], acc => [acc.reverse]
  | c :: cs, acc =>
    if c = '/' then acc.reverse :: splitCharsAux cs []
    else splitCharsAux cs (c :: acc)

/-- Splitting a string at every slash, as Python str.split("/") does. -/
def splitSlash (s : String) : List String :=
  (splitCharsAux s.data []).map (fun cs => { data := cs })

/-! ## Pending-upload migrator (KnowledgeBaseManager._process_pending_documents) -/

/-- Failure switches for one run of the migrator.  copyRaises models the
per-item exception caught by the continue-on-error handler around the
copy_object / delete_object / update_item block of each pending key (the
copy is the first effectful call of that block); ingestRaises models
start_ingestion_job raising in _trigger_ingestion_job, which propagates to
the outer handler of _process_pending_documents and skips the document-count
update. -/
structure MigrateEnv where
  copyRaises : String → Bool
  ingestRaises : Bool
  deriving Inhabited

/-- Processing of one pending S3 key: parse pending/{user_id}/{document_id}/
{filename}, copy the blob to docs/{user_hash}/{document_id}/{filename},
delete the pending copy, and update the document record.  Keys with fewer
than four slash-separated parts, and items whose migration raises, are
skipped (continue). -/
def migrateItem (env : MigrateEnv) (user_hash : String) (sys : Sys)
    (old_key : String) : Sys :=
  let parts := splitSlash old_key
  if parts.length < 4 then sys
  else if env.copyRaises old_key then sys
  else
    let document_id := parts.getD 2 ""
    let filename := parts.getD 3 ""
    let new_key := "docs/" ++ user_hash ++ "/" ++ document_id ++ "/" ++ filename
    let sys1 := { sys with
      s3Keys := (sys.s3Keys ++ [new_key]).filter (fun k => k != old_key) }
    let tbl1 := updateDoc sys1.documentsTable document_id
      (fun d => { d with s3_key := new_key, sync_status := "ready_for_ingestion" })
    { sys1 with documentsTable := tbl1 }

/-- Whether the migrator actually migrates a given pending key (well formed
and its per-item block does not raise). -/
def itemActs (env : MigrateEnv) (k : String) : Bool :=
  !(decide ((splitSlash k).length < 4)) && !(env.copyRaises k)

/-- KnowledgeBaseManager._process_pending_documents: list the pending keys of
the user, migrate each (continue on per-item failure), then trigger exactly
one batched ingestion job and ADD the number of listed pending objects to the
document_count of the user KB record.  If start_ingestion_job raises, the
exception reaches the outer handler and the count update is skipped.  The
source suffixes the batch description with a timestamp and also writes the
job id to a synthetic document record keyed by that description; both are
irrelevant to every verified property and are elided. -/
def process_pending_documents (env : MigrateEnv) (sys : Sys) (user_id : String)
    (kb : UserKbRecord) : Sys :=
  let pendingPre := "pending/" ++ user_id ++ "/"
  let pending := sys.s3Keys.filter (fun k => strStartsWith k pendingPre)
  if pending.isEmpty then sys
  else
    let sys1 := pending.foldl (migrateItem env kb.user_hash) sys
    let req : JobRequest :=
      { knowledge_base_id := kb.knowledge_base_id
        data_source_id := kb.data_source_id
        description := "pending_documents_batch" }
    let sys2 := { sys1 with jobRequests := sys1.jobRequests ++ [req] }
    if env.ingestRaises then sys2
    else { sys2 with
      userKbTable := addDocumentCount sys2.userKbTable user_id (pending.length : Int) }

/-! ## Index provisioning (KnowledgeBaseManager.get_or_create_user_kb) -/

/-- KnowledgeBaseManager._create_user_kb, with the provider-resource creation
steps abstracted into the supplied fresh record (provider-assigned handles
and the derived user hash): the record is stored with document_count 0 and
status active, then pending documents are processed. -/
def create_user_kb (fresh0 : UserKbRecord) (menv : MigrateEnv) (sys : Sys)
    (user_id : String) : UserKbRecord × Sys :=
  let fresh := { fresh0 with user_id := user_id, document_count := 0, status := "active" }
  let sys1 := { sys with userKbTable := putUserKb sys.userKbTable fresh }
  (fresh, process_pending_documents menv sys1 user_id fresh)

/-- Environment for get_or_create_user_kb: whether
bedrock_agent.get_knowledge_base succeeds for a given KB id (_verify_kb_exists),
and the record a fresh _create_user_kb run would build. -/
structure GetOrCreateEnv where
  kbExists : String → Bool
  fresh : UserKbRecord

/-- Result of get_or_create_user_kb; createdNew records whether the creation
path (_create_user_kb) ran. -/
structure GetOrCreateResult where
  kb : UserKbRecord
  createdNew : Bool
  deriving Repr, DecidableEq

/-- KnowledgeBaseManager.get_or_create_user_kb: if the user has a stored KB
record whose KB the provider confirms to exist, return it; if the stored KB
no longer exists, delete the stale record and create a new KB; if there is
no record, create a new KB. -/
def get_or_create_user_kb (env : GetOrCreateEnv) (menv : MigrateEnv) (sys : Sys)
    (user_id : String) : GetOrCreateResult × Sys :=
  match getUserKb sys.userKbTable user_id with
  | some existing =>
    if env.kbExists existing.knowledge_base_id then
      ({ kb := existing, createdNew := false }, sys)
    else
      let sys1 := { sys with userKbTable := removeUserKb sys.userKbTable user_id }
      let r := create_user_kb env.fresh menv sys1 user_id
      ({ kb := r.1, createdNew := true }, r.2)
  | none =>
    let r := create_user_kb env.fresh menv sys user_id
    ({ kb := r.1, createdNew := true }, r.2)

/-! ## Ingestion reconciler (KnowledgeBaseManager.check_ingestion_status) -/

/-- The COMPLETE-branch scan filter: ingestion_job_id = :job_id AND
sync_status IN (processing, syncing). -/
def matchesComplete (jid : String) (d : DocumentRecord) : Bool :=
  d.ingestion_job_id == some jid &&
    (d.sync_status == "processing" || d.sync_status == "syncing")

/-- The FAILED-branch scan filter: ingestion_job_id = :job_id AND
sync_status = processing. -/
def matchesFailed (jid : String) (d : DocumentRecord) : Bool :=
  d.ingestion_job_id == some jid && d.sync_status == "processing"

/-- The update applied to a document matched by a COMPLETE job. -/
def completeUpdate (d : DocumentRecord) : DocumentRecord :=
  { d with sync_status := "completed"
           message := "Document successfully indexed in Knowledge Base" }

/-- The update applied to a document matched by a FAILED job.  Note the code
stores the fixed string below into the message attribute; nothing from the
provider is copied. -/
def failedUpdate (d : DocumentRecord) : DocumentRecord :=
  { d with sync_status := "failed"
           message := "Knowledge Base ingestion failed" }

/-- Effect of one ingestion job summary on one document record. -/
def applyJobDoc (j : IngestionJob) (d : DocumentRecord) : DocumentRecord :=
  if j.status == "COMPLETE" && matchesComplete j.ingestionJobId d then completeUpdate d
  else if j.status == "FAILED" && matchesFailed j.ingestionJobId d then failedUpdate d
  else d

/-- The loop of check_ingestion_status over the listed jobs: for each job,
scan the current table for matching documents and update them; updated_count
accumulates only the COMPLETE-branch updates (the FAILED branch performs
updates without counting them). -/
def runJobs : List IngestionJob → List DocumentRecord → List DocumentRecord × Nat
  | [], tbl => (tbl, 0)
  | j :: js, tbl =>
    let updated := tbl.map (applyJobDoc j)
    let c := if j.status == "COMPLETE" then
        (tbl.filter (fun d => matchesComplete j.ingestionJobId d)).length
      else 0
    let r := runJobs js updated
    (r.1, c + r.2)

/-- KnowledgeBaseManager.check_ingestion_status: fetch the user KB record
(error result, modelled as none, when absent), list recent ingestion jobs
for its KB and data source, and reconcile document statuses; returns the
updated_count and the updated table. -/
def check_ingestion_status (listJobs : String → String → List IngestionJob)
    (userKbTable : List UserKbRecord) (tbl : List DocumentRecord)
    (user_id : String) : Option Nat × List DocumentRecord :=
  match getUserKb userKbTable user_id with
  | none => (none, tbl)
  | some kb =>
    let r := runJobs (listJobs kb.knowledge_base_id kb.data_source_id) tbl
    (some r.2, r.1)

/-- Effect of the whole listed job sequence on a single document record:
because each job updates matched documents pointwise, the table-level loop
factors through this per-document fold. -/
def foldDoc : List IngestionJob → DocumentRecord → DocumentRecord
  | [], d => d
  | j :: js, d => foldDoc js (applyJobDoc j d)

/-- The contribution of a single document to updated_count across the job
sequence (only COMPLETE-branch matches are counted). -/
def countDoc : List IngestionJob → DocumentRecord → Nat
  | [], _ => 0
  | j :: js, d =>
    (if j.status == "COMPLETE" && matchesComplete j.ingestionJobId d then 1 else 0)
      + countDoc js (applyJobDoc j d)

/-- Whether a job summary updates a given document (either branch). -/
def docUpdatedBy (j : IngestionJob) (d : DocumentRecord) : Bool :=
  (j.status == "COMPLETE" && matchesComplete j.ingestionJobId d)
    || (j.status == "FAILED" && matchesFailed j.ingestionJobId d)

/-! ## Sync-status read (DocumentProcessor.get_sync_status) -/

/-- Result of DocumentProcessor.get_sync_status; reconcilerInvoked records
whether the KB manager check_ingestion_status operation was invoked before
returning.  On a failure result the code returns only a message (Document
not found); the status field is then empty here. -/
structure GssResult where
  success : Bool
  status : String
  reconcilerInvoked : Bool
  deriving Repr, DecidableEq

/-- DocumentProcessor.get_sync_status: fetch the document, verify ownership
(a mismatch is reported as Document not found), and only when the current
sync_status is exactly processing invoke the KB manager
check_ingestion_status operation and re-fetch the document before returning
its status. -/
def get_sync_status (listJobs : String → String → List IngestionJob)
    (userKbTable : List UserKbRecord) (tbl : List DocumentRecord)
    (document_id user_id : String) : GssResult × List DocumentRecord :=
  match getDoc tbl document_id with
  | none => ({ success := false, status := "", reconcilerInvoked := false }, tbl)
  | some doc =>
    if doc.user_id == user_id then
      if doc.sync_status == "processing" then
        let tbl1 := (check_ingestion_status listJobs userKbTable tbl user_id).2
        let status1 := match getDoc tbl1 document_id with
          | some d => d.sync_status
          | none => "unknown"
        ({ success := true, status := status1, reconcilerInvoked := true }, tbl1)
      else
        ({ success := true, status := doc.sync_status, reconcilerInvoked := false }, tbl)
    else
      ({ success := false, status := "", reconcilerInvoked := false }, tbl)

/-! ## Document deletion (DocumentProcessor.delete_document) -/

/-- Failure switches for one delete_document run: whether s3.delete_object
raises (caught, deletion continues) and whether the DynamoDB delete_item
raises (caught, the call returns False). -/
structure DeleteEnv where
  s3DeleteRaises : Bool
  ddbDeleteRaises : Bool
  deriving Repr, DecidableEq

/-- Which distinct error branch a failed delete_document run took, mirroring
the distinct logger.error messages of the source (document not found in
DynamoDB; document does not belong to user; error deleting from DynamoDB). -/
inductive DeleteFailure where
  | notFound
  | ownership
  | dynamoDeleteError
  deriving Repr, DecidableEq

/-- Result of DocumentProcessor.delete_document: the returned boolean, the
failure branch taken (if any), and the resulting system state. -/
structure DeleteResult where
  ok : Bool
  failure : Option DeleteFailure
  sys : Sys
  deriving Repr, DecidableEq

/-- DocumentProcessor.delete_document: fetch the record and verify ownership
before touching anything; delete the blob best-effort (an S3 error is logged
and deletion continues); delete the metadata record (this one must succeed);
then request a resync ingestion job for the KB of the user so the index
drops the vectors of the deleted document (best-effort: a missing KB record
or a failing start_ingestion_job call never fails the delete). -/
def delete_document (env : DeleteEnv) (sys : Sys) (document_id user_id : String) :
    DeleteResult :=
  match getDoc sys.documentsTable document_id with
  | none => { ok := false, failure := some DeleteFailure.notFound, sys := sys }
  | some doc =>
    if doc.user_id == user_id then
      let s3Keys1 :=
        if doc.s3_key != "" && !env.s3DeleteRaises then
          sys.s3Keys.filter (fun k => k != doc.s3_key)
        else sys.s3Keys
      let sys1 := { sys with s3Keys := s3Keys1 }
      if env.ddbDeleteRaises then
        { ok := false, failure := some DeleteFailure.dynamoDeleteError, sys := sys1 }
      else
        let sys2 := { sys1 with documentsTable := removeDoc sys1.documentsTable document_id }
        match getUserKb sys2.userKbTable user_id with
        | some kb =>
          let req : JobRequest :=
            { knowledge_base_id := kb.knowledge_base_id
              data_source_id := kb.data_source_id
              description := "Sync after deleting document " ++ document_id }
          { ok := true, failure := none,
            sys := { sys2 with jobRequests := sys2.jobRequests ++ [req] } }
        | none => { ok := true, failure := none, sys := sys2 }
    else
      { ok := false, failure := some DeleteFailure.ownership, sys := sys }

/-! ## Fast-path upload (DocumentProcessor._process_with_existing_kb) -/

/-- Environment for one fast-path upload: the outcome of the
bedrock_agent.start_ingestion_job call inside _trigger_kb_ingestion
(the assigned job id, or the error the call raises). -/
structure FastPathEnv where
  startJob : Except String String

/-- DocumentProcessor._trigger_kb_ingestion: start an ingestion job for the
KB and data source of the user.  On success the document is marked syncing
with the job id; on failure the document is marked failed with the error
captured in error_message — the exception is swallowed, so the surrounding
upload still succeeds. -/
def trigger_kb_ingestion (env : FastPathEnv) (sys : Sys) (kb : UserKbRecord)
    (document_id : String) : Sys :=
  let req : JobRequest :=
    { knowledge_base_id := kb.knowledge_base_id
      data_source_id := kb.data_source_id
      description := "Ingestion for document " ++ document_id }
  let sys1 := { sys with jobRequests := sys.jobRequests ++ [req] }
  match env.startJob with
  | Except.ok job_id =>
    let tbl1 := updateDoc sys1.documentsTable document_id
      (fun d => { d with sync_status := "syncing", ingestion_job_id := some job_id })
    { sys1 with documentsTable := tbl1 }
  | Except.error e =>
    let tbl1 := updateDoc sys1.documentsTable document_id
      (fun d => { d with sync_status := "failed", error_message := e })
    { sys1 with documentsTable := tbl1 }

/-- The GraphQL-facing upload response of the fast path. -/
structure UploadResponse where
  success : Bool
  documentId : String
  s3_key : String
  sync_status : String
  deriving Repr, DecidableEq

/-- DocumentProcessor._process_with_existing_kb: upload the blob to
docs/{user_hash}/{document_id}/{filename}, store the metadata record with
sync_status uploaded, trigger ingestion, and answer success with
sync_status processing. -/
def process_with_existing_kb (env : FastPathEnv) (sys : Sys)
    (filename user_id document_id : String) (kb : UserKbRecord) :
    UploadResponse × Sys :=
  let s3_key := "docs/" ++ kb.user_hash ++ "/" ++ document_id ++ "/" ++ filename
  let sys1 := { sys with s3Keys := sys.s3Keys ++ [s3_key] }
  let meta : DocumentRecord :=
    { document_id := document_id
      user_id := user_id
      s3_key := s3_key
      filename := filename
      sync_status := "uploaded"
      ingestion_job_id := none
      knowledge_base_id := some kb.knowledge_base_id
      data_source_id := some kb.data_source_id
      message := ""
      error_message := "" }
  let sys2 := { sys1 with documentsTable := putDoc sys1.documentsTable meta }
  let sys3 := trigger_kb_ingestion env sys2 kb document_id
  ({ success := true, documentId := document_id, s3_key := s3_key,
     sync_status := "processing" }, sys3)

/-! ## Slow-path async handler (KnowledgeBaseManager.create_and_process_document) -/

/-- Environment for one create_and_process_document run: whether
_create_user_kb raises, the record a successful _create_user_kb builds, and
the outcome of the start_ingestion_job call of _trigger_ingestion_job
(which, unlike the document-processor variant, re-raises on failure). -/
structure CreateProcessEnv where
  createRaises : Bool
  fresh : UserKbRecord
  startJob : Except String String

/-- KnowledgeBaseManager._trigger_ingestion_job: start an ingestion job and
record the job id on the document; on failure the exception propagates to
the caller (flag false). -/
def kb_trigger_ingestion_job (startJob : Except String String) (sys : Sys)
    (kb_id ds_id document_id : String) : Sys × Bool :=
  let req : JobRequest :=
    { knowledge_base_id := kb_id
      data_source_id := ds_id
      description := "Ingestion job for document " ++ document_id }
  let sys1 := { sys with jobRequests := sys.jobRequests ++ [req] }
  match startJob with
  | Except.error _ => (sys1, false)
  | Except.ok job_id =>
    let tbl1 := updateDoc sys1.documentsTable document_id
      (fun d => { d with ingestion_job_id := some job_id })
    ({ sys1 with documentsTable := tbl1 }, true)

/-- KnowledgeBaseManager.create_and_process_document: create the user KB
(including pending-document migration), locate the blob in the temp key or
already in the final key, move it to the final key if needed, mark the
document processing with the new KB handles, trigger ingestion, and ADD 1 to
the document_count of the user.  Any failure marks the document failed and
returns an unsuccessful result. -/
def create_and_process_document (cenv : CreateProcessEnv) (menv : MigrateEnv)
    (sys : Sys) (user_id document_id filename temp_s3_key : String) :
    Bool × Sys :=
  if cenv.createRaises then
    let tblF := updateDoc sys.documentsTable document_id
      (fun d => { d with
        sync_status := "failed",
        message := "Failed to create Knowledge Base" })
    (false, { sys with documentsTable := tblF })
  else
    let created := create_user_kb cenv.fresh menv sys user_id
    let fresh := created.1
    let sys2 := created.2
    let final_key := "docs/" ++ fresh.user_hash ++ "/" ++ document_id ++ "/" ++ filename
    let located : Option Sys :=
      if sys2.s3Keys.contains temp_s3_key then
        some { sys2 with s3Keys := (sys2.s3Keys ++ [final_key]).filter (fun k => k != temp_s3_key) }
      else if sys2.s3Keys.contains final_key then some sys2
      else none
    match located with
    | none =>
      let tblF := updateDoc sys2.documentsTable document_id
        (fun d => { d with
          sync_status := "failed",
          message := "Failed to create Knowledge Base" })
      (false, { sys2 with documentsTable := tblF })
    | some sys3 =>
      let tbl4 := updateDoc sys3.documentsTable document_id
        (fun d => { d with
          s3_key := final_key,
          knowledge_base_id := some fresh.knowledge_base_id,
          data_source_id := some fresh.data_source_id,
          sync_status := "processing",
          message := "Knowledge Base created successfully. Starting document ingestion..." })
      let sys4 := { sys3 with documentsTable := tbl4 }
      let triggered := kb_trigger_ingestion_job cenv.startJob sys4
        fresh.knowledge_base_id fresh.data_source_id document_id
      if triggered.2 then
        (true, { triggered.1 with
          userKbTable := addDocumentCount triggered.1.userKbTable user_id 1 })
      else
        let tblF := updateDoc triggered.1.documentsTable document_id
          (fun d => { d with
            sync_status := "failed",
            message := "Failed to create Knowledge Base" })
        (false, { triggered.1 with documentsTable := tblF })

/-! ## Concrete instances used by counterexamples and witnesses -/

/-- A user KB record with the given user id, KB handles, hash and count. -/
def mkKb (uid kbid dsid hash : String) (n : Int) : UserKbRecord :=
  { user_id := uid, knowledge_base_id := kbid, data_source_id := dsid,
    vector_bucket_name := "vb", user_hash := hash, document_count := n,
    status := "active" }

/-- A document record with the given id, owner, storage key, status and
ingestion job reference. -/
def mkDoc (did uid key st : String) (job : Option String) : DocumentRecord :=
  { document_id := did, user_id := uid, s3_key := key, filename := "f.pdf",
    sync_status := st, ingestion_job_id := job, knowledge_base_id := some "kb1",
    data_source_id := some "ds1", message := "", error_message := "" }

/-- A small state with one provisioned user and one completed document. -/
def exSysC1 : Sys :=
  { userKbTable := [mkKb "u1" "kb1" "ds1" "h1" 3]
    documentsTable := [mkDoc "d1" "u1" "docs/h1/d1/f.pdf" "completed" (some "j1")]
    s3Keys := ["docs/h1/d1/f.pdf"]
    jobRequests := [] }

/-- An environment whose provider confirms every KB id. -/
def exEnvC1 : GetOrCreateEnv :=
  { kbExists := fun _ => true, fresh := mkKb "" "kbF" "dsF" "hF" 0 }

/-- A migrator environment in which nothing fails. -/
def happyMigrate : MigrateEnv := { copyRaises := fun _ => false, ingestRaises := false }

/-- A state with one syncing document and one provisioned user, used by the
delete and sync-status scenarios. -/
def exSysDel : Sys :=
  { userKbTable := [mkKb "u1" "kb1" "ds1" "h1" 1]
    documentsTable := [mkDoc "d1" "u1" "docs/h1/d1/f.pdf" "syncing" (some "j1")]
    s3Keys := ["docs/h1/d1/f.pdf"]
    jobRequests := [] }


/-- A FAILED ingestion job summary carrying a provider failure reason. -/
def exJobFail : IngestionJob :=
  { ingestionJobId := "j1", status := "FAILED", failureReasons := ["Disk quota exceeded"] }

/-- A COMPLETE ingestion job summary. -/
def exJobDone : IngestionJob :=
  { ingestionJobId := "j1", status := "COMPLETE", failureReasons := [] }

/-- A document in status processing referencing job j1. -/
def exDocProc : DocumentRecord := mkDoc "d1" "u1" "docs/h1/d1/f.pdf" "processing" (some "j1")

/-- A migrator environment in which the copy of the first pending blob of
user u1 raises and everything else succeeds. -/
def exMigEnv : MigrateEnv :=
  { copyRaises := fun k => k == "pending/u1/d1/a.pdf", ingestRaises := false }

/-- A state with two pending blobs for user u1 and their document records. -/
def exSysMig : Sys :=
  { userKbTable := [mkKb "u1" "kb1" "ds1" "h1" 0]
    documentsTable :=
      [mkDoc "d1" "u1" "pending/u1/d1/a.pdf" "creating_knowledge_base" none,
       mkDoc "d2" "u1" "pending/u1/d2/b.pdf" "creating_knowledge_base" none]
    s3Keys := ["pending/u1/d1/a.pdf", "pending/u1/d2/b.pdf"]
    jobRequests := [] }

/-- A first-upload state for user u2: no KB record yet, the blob sits at a
temp key outside the pending area of u2, one document record awaiting the
async handler. -/
def exSysSlow : Sys :=
  { userKbTable := []
    documentsTable := [mkDoc "d7" "u2" "tmp/u2/d7/r.pdf" "creating_knowledge_base" none]
    s3Keys := ["tmp/u2/d7/r.pdf"]
    jobRequests := [] }

/-- An async-handler environment that succeeds, creating fresh provider
handles. -/
def exCpEnv : CreateProcessEnv :=
  { createRaises := false, fresh := mkKb "x" "kbF" "dsF" "hF" 7,
    startJob := Except.ok "j9" }

/-! ## Helper lemmas about the table operations -/

theorem getDoc_removeDoc (tbl : List DocumentRecord) (id : String) :
    getDoc (removeDoc tbl id) id = none := by
  simp only [getDoc, removeDoc, List.find?_eq_none, List.mem_filter]
  intro d hd
  simpa using hd.2

theorem getDoc_updateDoc (tbl : List DocumentRecord) (id : String)
    (f : DocumentRecord → DocumentRecord)
    (hf : ∀ d, (f d).document_id = d.document_id) :
    getDoc (updateDoc tbl id f) id = (getDoc tbl id).map f := by
  induction tbl with
  | nil => rfl
  | cons d tl ih =>
    simp only [getDoc, updateDoc, List.map_cons] at ih ⊢
    by_cases h : d.document_id = id
    · have hb : (d.document_id == id) = true := beq_iff_eq.mpr h
      have hbf : ((f d).document_id == id) = true := by
        rw [hf]; exact hb
      rw [if_pos hb]
      simp only [List.find?_cons, hb, hbf]
      rfl
    · have hb : (d.document_id == id) = false := beq_eq_false_iff_ne.mpr h
      rw [if_neg (by simp [hb])]
      simp only [List.find?_cons, hb]
      exact ih

theorem getDoc_putDoc (tbl : List DocumentRecord) (d : DocumentRecord) :
    getDoc (putDoc tbl d) d.document_id = some d := by
  simp [getDoc, putDoc, List.find?_cons]

theorem getUserKb_addDocumentCount (tbl : List UserKbRecord) (uid : String) (n : Int) :
    getUserKb (addDocumentCount tbl uid n) uid
      = (getUserKb tbl uid).map
          (fun r => { r with document_count := r.document_count + n }) := by
  induction tbl with
  | nil => rfl
  | cons r tl ih =>
    simp only [getUserKb, addDocumentCount, List.map_cons] at ih ⊢
    by_cases h : r.user_id = uid
    · have hb : (r.user_id == uid) = true := beq_iff_eq.mpr h
      rw [if_pos hb]
      simp only [List.find?_cons, hb]
      rfl
    · have hb : (r.user_id == uid) = false := beq_eq_false_iff_ne.mpr h
      rw [if_neg (by simp [hb])]
      simp only [List.find?_cons, hb]
      exact ih

theorem getUserKb_putUserKb (tbl : List UserKbRecord) (r : UserKbRecord) :
    getUserKb (putUserKb tbl r) r.user_id = some r := by
  simp [getUserKb, putUserKb, List.find?_cons]

/-! ## Claim C1 -/

/-- Claim C1: for a tenant that already has a TenantIndex record whose index
the provider confirms to exist, calling get_or_create twice in sequence
returns the same index_id (knowledge_base_id) both times, neither call runs
the creation path, and the state is left unchanged. -/
theorem get_or_create_idempotent (env : GetOrCreateEnv) (menv : MigrateEnv)
    (sys : Sys) (user_id : String) (r : UserKbRecord)
    (hget : getUserKb sys.userKbTable user_id = some r)
    (hex : env.kbExists r.knowledge_base_id = true) :
    (get_or_create_user_kb env menv sys user_id).1.kb.knowledge_base_id
      = (get_or_create_user_kb env menv
          (get_or_create_user_kb env menv sys user_id).2 user_id).1.kb.knowledge_base_id
    ∧ (get_or_create_user_kb env menv sys user_id).1.createdNew = false
    ∧ (get_or_create_user_kb env menv
        (get_or_create_user_kb env menv sys user_id).2 user_id).1.createdNew = false
    ∧ (get_or_create_user_kb env menv
        (get_or_create_user_kb env menv sys user_id).2 user_id).2 = sys := by
  simp [get_or_create_user_kb, hget, hex]

/-- Witness for C1 at a concrete provisioned tenant. -/
theorem get_or_create_idempotent_witness :
    getUserKb exSysC1.userKbTable "u1" = some (mkKb "u1" "kb1" "ds1" "h1" 3)
    ∧ exEnvC1.kbExists (mkKb "u1" "kb1" "ds1" "h1" 3).knowledge_base_id = true
    ∧ ((get_or_create_user_kb exEnvC1 happyMigrate exSysC1 "u1").1.kb.knowledge_base_id
        = (get_or_create_user_kb exEnvC1 happyMigrate
            (get_or_create_user_kb exEnvC1 happyMigrate exSysC1 "u1").2 "u1").1.kb.knowledge_base_id
      ∧ (get_or_create_user_kb exEnvC1 happyMigrate exSysC1 "u1").1.createdNew = false
      ∧ (get_or_create_user_kb exEnvC1 happyMigrate
          (get_or_create_user_kb exEnvC1 happyMigrate exSysC1 "u1").2 "u1").1.createdNew = false
      ∧ (get_or_create_user_kb exEnvC1 happyMigrate
          (get_or_create_user_kb exEnvC1 happyMigrate exSysC1 "u1").2 "u1").2 = exSysC1) :=
  ⟨by rfl, by rfl,
    get_or_create_idempotent exEnvC1 happyMigrate exSysC1 "u1"
      (mkKb "u1" "kb1" "ds1" "h1" 3) (by rfl) (by rfl)⟩

/-! ## Claims C2 and C3 -/

/-- Claim C2: for a document owned by the calling user whose tenant has a KB
record, delete_document deletes the metadata record and reports success even
when the blob delete raises (the environment is arbitrary in s3DeleteRaises),
and a resync ingestion job for the KB and data source of the tenant is
requested. -/
theorem delete_document_tolerates_blob_error (env : DeleteEnv) (sys : Sys)
    (document_id user_id : String) (doc : DocumentRecord) (kb : UserKbRecord)
    (hdoc : getDoc sys.documentsTable document_id = some doc)
    (hown : doc.user_id = user_id)
    (hkb : getUserKb sys.userKbTable user_id = some kb)
    (hddb : env.ddbDeleteRaises = false) :
    (delete_document env sys document_id user_id).ok = true
    ∧ getDoc (delete_document env sys document_id user_id).sys.documentsTable
        document_id = none
    ∧ (delete_document env sys document_id user_id).sys.jobRequests
        = sys.jobRequests ++
          [{ knowledge_base_id := kb.knowledge_base_id
             data_source_id := kb.data_source_id
             description := "Sync after deleting document " ++ document_id }] := by
  simp [delete_document, hdoc, hown, hkb, hddb, getDoc_removeDoc]

/-- Witness for C2: the blob delete raises, the metadata delete succeeds. -/
theorem delete_document_tolerates_blob_error_witness :
    getDoc exSysDel.documentsTable "d1"
        = some (mkDoc "d1" "u1" "docs/h1/d1/f.pdf" "syncing" (some "j1"))
    ∧ (mkDoc "d1" "u1" "docs/h1/d1/f.pdf" "syncing" (some "j1")).user_id = "u1"
    ∧ getUserKb exSysDel.userKbTable "u1" = some (mkKb "u1" "kb1" "ds1" "h1" 1)
    ∧ (DeleteEnv.mk true false).ddbDeleteRaises = false
    ∧ ((delete_document (DeleteEnv.mk true false) exSysDel "d1" "u1").ok = true
      ∧ getDoc (delete_document (DeleteEnv.mk true false) exSysDel "d1" "u1").sys.documentsTable
          "d1" = none
      ∧ (delete_document (DeleteEnv.mk true false) exSysDel "d1" "u1").sys.jobRequests
          = exSysDel.jobRequests ++
            [{ knowledge_base_id := (mkKb "u1" "kb1" "ds1" "h1" 1).knowledge_base_id
               data_source_id := (mkKb "u1" "kb1" "ds1" "h1" 1).data_source_id
               description := "Sync after deleting document " ++ "d1" }]) :=
  ⟨by rfl, by rfl, by rfl, by rfl,
    delete_document_tolerates_blob_error (DeleteEnv.mk true false) exSysDel "d1" "u1"
      (mkDoc "d1" "u1" "docs/h1/d1/f.pdf" "syncing" (some "j1"))
      (mkKb "u1" "kb1" "ds1" "h1" 1) (by rfl) (by rfl) (by rfl) (by rfl)⟩

/-- Claim C3: deleting a document whose stored user id differs from the
calling user fails on the ownership branch and leaves the whole state —
blob keys, metadata records and job requests — untouched. -/
theorem delete_document_ownership_mismatch (env : DeleteEnv) (sys : Sys)
    (document_id user_id : String) (doc : DocumentRecord)
    (hdoc : getDoc sys.documentsTable document_id = some doc)
    (hown : doc.user_id ≠ user_id) :
    (delete_document env sys document_id user_id).ok = false
    ∧ (delete_document env sys document_id user_id).failure
        = some DeleteFailure.ownership
    ∧ (delete_document env sys document_id user_id).sys = sys := by
  have hb : (doc.user_id == user_id) = false := beq_eq_false_iff_ne.mpr hown
  simp [delete_document, hdoc, hb]

/-- Witness for C3: user u2 tries to delete a document of u1. -/
theorem delete_document_ownership_mismatch_witness :
    getDoc exSysDel.documentsTable "d1"
        = some (mkDoc "d1" "u1" "docs/h1/d1/f.pdf" "syncing" (some "j1"))
    ∧ (mkDoc "d1" "u1" "docs/h1/d1/f.pdf" "syncing" (some "j1")).user_id ≠ "u2"
    ∧ ((delete_document (DeleteEnv.mk false false) exSysDel "d1" "u2").ok = false
      ∧ (delete_document (DeleteEnv.mk false false) exSysDel "d1" "u2").failure
          = some DeleteFailure.ownership
      ∧ (delete_document (DeleteEnv.mk false false) exSysDel "d1" "u2").sys = exSysDel) :=
  ⟨by rfl, by decide,
    delete_document_ownership_mismatch (DeleteEnv.mk false false) exSysDel "d1" "u2"
      (mkDoc "d1" "u1" "docs/h1/d1/f.pdf" "syncing" (some "j1")) (by rfl) (by decide)⟩

/-! ## Claim C7 -/

/-- Claim C7 counterexample: a document owned by the calling user whose
sync_status is syncing — a non-terminal status — does not trigger the
reconciler: get_sync_status returns it without invoking
check_ingestion_status, refuting the claim that every non-terminal status
triggers reconciliation. -/
theorem get_sync_status_syncing_skips_reconciler :
    (mkDoc "d1" "u1" "docs/h1/d1/f.pdf" "syncing" (some "j1")).sync_status ≠ "completed"
    ∧ (mkDoc "d1" "u1" "docs/h1/d1/f.pdf" "syncing" (some "j1")).sync_status ≠ "failed"
    ∧ (mkDoc "d1" "u1" "docs/h1/d1/f.pdf" "syncing" (some "j1")).user_id = "u1"
    ∧ (get_sync_status (fun _ _ => []) exSysDel.userKbTable exSysDel.documentsTable
        "d1" "u1").1.success = true
    ∧ (get_sync_status (fun _ _ => []) exSysDel.userKbTable exSysDel.documentsTable
        "d1" "u1").1.reconcilerInvoked = false := by
  refine ⟨by decide, by decide, by rfl, by rfl, by rfl⟩

/-- Claim C7 amended: get_sync_status triggers the ingestion reconciler
before returning exactly when the current sync_status is the string
processing; any other status — including the non-terminal syncing and
creating_knowledge_base — is returned without triggering it. -/
theorem get_sync_status_reconciles_only_processing
    (listJobs : String → String → List IngestionJob)
    (userKbTable : List UserKbRecord) (tbl : List DocumentRecord)
    (document_id user_id : String) (doc : DocumentRecord)
    (hdoc : getDoc tbl document_id = some doc)
    (hown : doc.user_id = user_id) :
    (get_sync_status listJobs userKbTable tbl document_id user_id).1.reconcilerInvoked
      = (doc.sync_status == "processing") := by
  by_cases h : doc.sync_status = "processing"
  · simp [get_sync_status, hdoc, hown, h]
  · have hb : (doc.sync_status == "processing") = false := beq_eq_false_iff_ne.mpr h
    simp [get_sync_status, hdoc, hown, hb]

/-- Witness for the amended C7 at a document in status processing. -/
theorem get_sync_status_reconciles_only_processing_witness :
    getDoc [mkDoc "d9" "u1" "docs/h1/d9/f.pdf" "processing" (some "j1")] "d9"
        = some (mkDoc "d9" "u1" "docs/h1/d9/f.pdf" "processing" (some "j1"))
    ∧ (mkDoc "d9" "u1" "docs/h1/d9/f.pdf" "processing" (some "j1")).user_id = "u1"
    ∧ (get_sync_status (fun _ _ => []) []
        [mkDoc "d9" "u1" "docs/h1/d9/f.pdf" "processing" (some "j1")]
        "d9" "u1").1.reconcilerInvoked
      = ((mkDoc "d9" "u1" "docs/h1/d9/f.pdf" "processing" (some "j1")).sync_status
          == "processing") :=
  ⟨by rfl, by rfl,
    get_sync_status_reconciles_only_processing (fun _ _ => []) []
      [mkDoc "d9" "u1" "docs/h1/d9/f.pdf" "processing" (some "j1")] "d9" "u1"
      (mkDoc "d9" "u1" "docs/h1/d9/f.pdf" "processing" (some "j1")) (by rfl) (by rfl)⟩

/-! ## Claim C8 -/

/-- Claim C8: on the fast path, when the start-ingestion-job call raises, the
document is marked failed with the error captured in error_message, yet the
upload response is still successful with sync_status processing — the upload
acknowledgment is decoupled from ingestion triggering. -/
theorem fast_path_ok_despite_ingestion_failure (sys : Sys)
    (filename user_id document_id e : String) (kb : UserKbRecord) :
    (process_with_existing_kb ⟨Except.error e⟩ sys filename user_id document_id kb).1.success
        = true
    ∧ (process_with_existing_kb ⟨Except.error e⟩ sys filename user_id document_id
        kb).1.sync_status = "processing"
    ∧ (getDoc (process_with_existing_kb ⟨Except.error e⟩ sys filename user_id document_id
          kb).2.documentsTable document_id).map
        (fun d => (d.sync_status, d.error_message)) = some ("failed", e) := by
  refine ⟨rfl, rfl, ?_⟩
  simp [process_with_existing_kb, trigger_kb_ingestion, getDoc, putDoc, updateDoc,
    List.find?_cons]

/-! ## Reconciler lemmas -/

theorem matchesComplete_status (jid : String) (d : DocumentRecord)
    (h : matchesComplete jid d = true) :
    d.sync_status = "processing" ∨ d.sync_status = "syncing" := by
  simp [matchesComplete] at h
  exact h.2

theorem matchesFailed_status (jid : String) (d : DocumentRecord)
    (h : matchesFailed jid d = true) : d.sync_status = "processing" := by
  simp [matchesFailed] at h
  exact h.2

theorem matchesComplete_terminal (jid : String) (d : DocumentRecord)
    (h : d.sync_status = "completed" ∨ d.sync_status = "failed") :
    matchesComplete jid d = false := by
  rcases h with h | h <;> simp [matchesComplete, h]

theorem matchesFailed_terminal (jid : String) (d : DocumentRecord)
    (h : d.sync_status = "completed" ∨ d.sync_status = "failed") :
    matchesFailed jid d = false := by
  rcases h with h | h <;> simp [matchesFailed, h]

theorem docUpdatedBy_terminal (j : IngestionJob) (d : DocumentRecord)
    (h : d.sync_status = "completed" ∨ d.sync_status = "failed") :
    docUpdatedBy j d = false := by
  simp [docUpdatedBy, matchesComplete_terminal j.ingestionJobId d h,
    matchesFailed_terminal j.ingestionJobId d h]

theorem applyJobDoc_terminal (j : IngestionJob) (d : DocumentRecord)
    (h : d.sync_status = "completed" ∨ d.sync_status = "failed") :
    applyJobDoc j d = d := by
  simp [applyJobDoc, matchesComplete_terminal j.ingestionJobId d h,
    matchesFailed_terminal j.ingestionJobId d h]

theorem applyJobDoc_not_updated (j : IngestionJob) (d : DocumentRecord)
    (h : docUpdatedBy j d = false) : applyJobDoc j d = d := by
  rw [docUpdatedBy, Bool.or_eq_false_iff] at h
  simp [applyJobDoc, h.1, h.2]

theorem applyJobDoc_updated_terminal (j : IngestionJob) (d : DocumentRecord)
    (h : docUpdatedBy j d = true) :
    (applyJobDoc j d).sync_status = "completed"
    ∨ (applyJobDoc j d).sync_status = "failed" := by
  cases hc : (j.status == "COMPLETE" && matchesComplete j.ingestionJobId d) with
  | true => simp [applyJobDoc, hc, completeUpdate]
  | false =>
    have hf : (j.status == "FAILED" && matchesFailed j.ingestionJobId d) = true := by
      rw [docUpdatedBy, hc, Bool.false_or] at h
      exact h
    simp [applyJobDoc, hc, hf, failedUpdate]

theorem foldDoc_terminal (js : List IngestionJob) (d : DocumentRecord)
    (h : d.sync_status = "completed" ∨ d.sync_status = "failed") :
    foldDoc js d = d := by
  induction js with
  | nil => rfl
  | cons j js ih => simp only [foldDoc, applyJobDoc_terminal j d h]; exact ih

theorem countDoc_terminal (js : List IngestionJob) (d : DocumentRecord)
    (h : d.sync_status = "completed" ∨ d.sync_status = "failed") :
    countDoc js d = 0 := by
  induction js with
  | nil => rfl
  | cons j js ih =>
    simp only [countDoc, applyJobDoc_terminal j d h,
      matchesComplete_terminal j.ingestionJobId d h, Bool.and_false]
    simpa using ih

theorem foldDoc_cases (js : List IngestionJob) (d : DocumentRecord) :
    foldDoc js d = d
    ∨ (foldDoc js d).sync_status = "completed"
    ∨ (foldDoc js d).sync_status = "failed" := by
  induction js generalizing d with
  | nil => exact Or.inl rfl
  | cons j js ih =>
    cases hup : docUpdatedBy j d with
    | false =>
      simp only [foldDoc, applyJobDoc_not_updated j d hup]
      exact ih d
    | true =>
      have hterm := applyJobDoc_updated_terminal j d hup
      simp only [foldDoc, foldDoc_terminal js _ hterm]
      exact Or.inr hterm

theorem foldDoc_inert (js : List IngestionJob) (d : DocumentRecord) :
    ∀ j ∈ js, docUpdatedBy j (foldDoc js d) = false := by
  induction js generalizing d with
  | nil => intro j hj; cases hj
  | cons j0 js ih =>
    intro j hj
    rcases List.mem_cons.mp hj with rfl | hj'
    · cases hup : docUpdatedBy j d with
      | true =>
        have hterm := applyJobDoc_updated_terminal j d hup
        simp only [foldDoc, foldDoc_terminal js _ hterm]
        exact docUpdatedBy_terminal j _ hterm
      | false =>
        simp only [foldDoc, applyJobDoc_not_updated j d hup]
        rcases foldDoc_cases js d with hc | hc | hc
        · rw [hc]; exact hup
        · exact docUpdatedBy_terminal j _ (Or.inl hc)
        · exact docUpdatedBy_terminal j _ (Or.inr hc)
    · simp only [foldDoc]
      exact ih (applyJobDoc j0 d) j hj'

theorem foldDoc_of_inert (js : List IngestionJob) (d : DocumentRecord)
    (h : ∀ j ∈ js, docUpdatedBy j d = false) : foldDoc js d = d := by
  induction js with
  | nil => rfl
  | cons j js ih =>
    simp only [foldDoc, applyJobDoc_not_updated j d (h j (List.mem_cons_self j js))]
    exact ih (fun j' hj' => h j' (List.mem_cons_of_mem j hj'))

theorem countDoc_of_inert (js : List IngestionJob) (d : DocumentRecord)
    (h : ∀ j ∈ js, docUpdatedBy j d = false) : countDoc js d = 0 := by
  induction js with
  | nil => rfl
  | cons j js ih =>
    have h0 := h j (List.mem_cons_self j js)
    rw [docUpdatedBy, Bool.or_eq_false_iff] at h0
    simp only [countDoc, h0.1,
      applyJobDoc_not_updated j d (h j (List.mem_cons_self j js))]
    simpa using ih (fun j' hj' => h j' (List.mem_cons_of_mem j hj'))

theorem foldDoc_idem (js : List IngestionJob) (d : DocumentRecord) :
    foldDoc js (foldDoc js d) = foldDoc js d :=
  foldDoc_of_inert js _ (foldDoc_inert js d)

theorem countDoc_foldDoc (js : List IngestionJob) (d : DocumentRecord) :
    countDoc js (foldDoc js d) = 0 :=
  countDoc_of_inert js _ (foldDoc_inert js d)

theorem runJobs_fst (js : List IngestionJob) (tbl : List DocumentRecord) :
    (runJobs js tbl).1 = tbl.map (foldDoc js) := by
  induction js generalizing tbl with
  | nil => simp [runJobs, foldDoc]
  | cons j js ih =>
    simp only [runJobs]
    rw [ih, List.map_map]
    rfl

theorem sum_map_add (f g : DocumentRecord → Nat) (l : List DocumentRecord) :
    (l.map (fun d => f d + g d)).sum = (l.map f).sum + (l.map g).sum := by
  induction l with
  | nil => rfl
  | cons d tl ih => simp [ih]; omega

theorem sum_indicator_eq_length_filter (p : DocumentRecord → Bool)
    (l : List DocumentRecord) :
    (l.map (fun d => if p d then 1 else 0)).sum = (l.filter p).length := by
  induction l with
  | nil => rfl
  | cons d tl ih =>
    cases h : p d
    · simp [List.filter_cons, h, ih]
    · simp [List.filter_cons, h, ih]
      omega

theorem count_step (j : IngestionJob) (js : List IngestionJob)
    (tbl : List DocumentRecord) :
    (if j.status == "COMPLETE" then
        (tbl.filter (fun d => matchesComplete j.ingestionJobId d)).length
      else 0)
      + (tbl.map (fun d => countDoc js (applyJobDoc j d))).sum
      = (tbl.map (countDoc (j :: js))).sum := by
  induction tbl with
  | nil => cases h : (j.status == "COMPLETE") <;> simp [h]
  | cons d tl ih =>
    cases hc : (j.status == "COMPLETE") <;>
      cases hm : matchesComplete j.ingestionJobId d <;>
      simp [List.filter_cons, countDoc, hc, hm] at ih ⊢ <;>
      omega

theorem runJobs_snd (js : List IngestionJob) (tbl : List DocumentRecord) :
    (runJobs js tbl).2 = (tbl.map (countDoc js)).sum := by
  induction js generalizing tbl with
  | nil =>
    simp only [runJobs]
    symm
    apply List.sum_eq_zero
    intro x hx
    rcases List.mem_map.mp hx with ⟨d, _, h⟩
    rw [← h]
    rfl
  | cons j js ih =>
    simp only [runJobs]
    rw [ih, List.map_map]
    exact count_step j js tbl

theorem countDoc_delta (js : List IngestionJob) (d : DocumentRecord) :
    countDoc js d + (if d.sync_status == "completed" then 1 else 0)
      = (if (foldDoc js d).sync_status == "completed" then 1 else 0) := by
  induction js generalizing d with
  | nil => simp [countDoc, foldDoc]
  | cons j js ih =>
    simp only [countDoc, foldDoc]
    cases hup : (j.status == "COMPLETE" && matchesComplete j.ingestionJobId d) with
    | true =>
      have ha : applyJobDoc j d = completeUpdate d := by
        simp [applyJobDoc, hup]
      have hmc : matchesComplete j.ingestionJobId d = true := by
        exact (Bool.and_eq_true_iff.mp hup).2
      have hd : (d.sync_status == "completed") = false := by
        rcases matchesComplete_status _ _ hmc with h | h <;> simp [h]
      have hterm : (completeUpdate d).sync_status = "completed" ∨
          (completeUpdate d).sync_status = "failed" := Or.inl rfl
      simp only [ha, countDoc_terminal js _ hterm, foldDoc_terminal js _ hterm]
      simp [hd, completeUpdate]
    | false =>
      cases hfm : (j.status == "FAILED" && matchesFailed j.ingestionJobId d) with
      | true =>
        have ha : applyJobDoc j d = failedUpdate d := by
          simp [applyJobDoc, hup, hfm]
        have hmf : matchesFailed j.ingestionJobId d = true :=
          (Bool.and_eq_true_iff.mp hfm).2
        have hd : (d.sync_status == "completed") = false := by
          simp [matchesFailed_status _ _ hmf]
        have hterm : (failedUpdate d).sync_status = "completed" ∨
            (failedUpdate d).sync_status = "failed" := Or.inr rfl
        simp only [ha, countDoc_terminal js _ hterm, foldDoc_terminal js _ hterm]
        simp [hd, failedUpdate]
      | false =>
        have hnu : docUpdatedBy j d = false := by
          simp [docUpdatedBy, hup, hfm]
        simp only [applyJobDoc_not_updated j d hnu]
        simpa using ih d

theorem applyJobDoc_document_id (j : IngestionJob) (d : DocumentRecord) :
    (applyJobDoc j d).document_id = d.document_id := by
  unfold applyJobDoc
  split_ifs <;> rfl

theorem foldDoc_document_id (js : List IngestionJob) (d : DocumentRecord) :
    (foldDoc js d).document_id = d.document_id := by
  induction js generalizing d with
  | nil => rfl
  | cons j js ih =>
    simp only [foldDoc]
    rw [ih, applyJobDoc_document_id]

theorem getDoc_map_foldDoc (js : List IngestionJob) (tbl : List DocumentRecord)
    (id : String) :
    getDoc (tbl.map (foldDoc js)) id = (getDoc tbl id).map (foldDoc js) := by
  induction tbl with
  | nil => rfl
  | cons d tl ih =>
    simp only [List.map_cons, getDoc] at ih ⊢
    cases h : (d.document_id == id) with
    | true =>
      have h2 : ((foldDoc js d).document_id == id) = true := by
        rw [foldDoc_document_id]; exact h
      simp only [List.find?_cons, h, h2]
      rfl
    | false =>
      have h2 : ((foldDoc js d).document_id == id) = false := by
        rw [foldDoc_document_id]; exact h
      simp only [List.find?_cons, h, h2]
      exact ih

theorem foldDoc_failed_head (js : List IngestionJob) (j : IngestionJob)
    (d : DocumentRecord) (hst : j.status = "FAILED")
    (hjob : d.ingestion_job_id = some j.ingestionJobId)
    (hproc : d.sync_status = "processing") :
    foldDoc (j :: js) d = failedUpdate d := by
  have hfm : matchesFailed j.ingestionJobId d = true := by
    simp [matchesFailed, hjob, hproc]
  have ha : applyJobDoc j d = failedUpdate d := by
    simp [applyJobDoc, hst, hfm]
  simp only [foldDoc, ha]
  exact foldDoc_terminal js _ (Or.inr rfl)

theorem foldDoc_failed_job (js : List IngestionJob) (j : IngestionJob)
    (d : DocumentRecord) (hj : j ∈ js) (hst : j.status = "FAILED")
    (huniq : ∀ j' ∈ js, j'.ingestionJobId = j.ingestionJobId → j' = j)
    (hjob : d.ingestion_job_id = some j.ingestionJobId)
    (hproc : d.sync_status = "processing") :
    foldDoc js d = failedUpdate d := by
  induction js with
  | nil => cases hj
  | cons j0 js ih =>
    by_cases he : j0 = j
    · subst he
      exact foldDoc_failed_head js j0 d hst hjob hproc
    · have hne : j0.ingestionJobId ≠ j.ingestionJobId := fun h =>
        he (huniq j0 (List.mem_cons_self j0 js) h)
      have hbne : (j.ingestionJobId == j0.ingestionJobId) = false :=
        beq_eq_false_iff_ne.mpr (Ne.symm hne)
      have hnu : docUpdatedBy j0 d = false := by
        simp [docUpdatedBy, matchesComplete, matchesFailed, hjob, hbne]
      have hj' : j ∈ js := by
        rcases List.mem_cons.mp hj with h | h
        · exact absurd h.symm he
        · exact h
      simp only [foldDoc, applyJobDoc_not_updated j0 d hnu]
      exact ih hj' (fun j' hj'' hid => huniq j' (List.mem_cons_of_mem j0 hj'') hid)

/-! ## Claim C5 -/

/-- Claim C5 counterexample: the reconciler observes a FAILED job whose
provider failure reason is Disk quota exceeded; the matching processing
document is set to failed, but the stored message is the fixed string
Knowledge Base ingestion failed and error_message is untouched — the
provider failure reason is copied nowhere. -/
theorem check_ingestion_failed_reason_not_copied :
    exJobFail.failureReasons = ["Disk quota exceeded"]
    ∧ (getDoc (check_ingestion_status (fun _ _ => [exJobFail])
          [mkKb "u1" "kb1" "ds1" "h1" 0] [exDocProc] "u1").2 "d1").map
        (fun d => (d.sync_status, d.message, d.error_message))
      = some ("failed", "Knowledge Base ingestion failed", "")
    ∧ ("Knowledge Base ingestion failed" : String) ≠ "Disk quota exceeded" :=
  ⟨rfl, by rfl, by decide⟩

/-- Claim C5 amended: for every FAILED job the reconciler observes (with job
ids unique in the listing), every document referencing that job id with
sync_status processing is set to failed — but with the fixed message
Knowledge Base ingestion failed; the provider failure reason is not copied
and error_message is left unchanged. -/
theorem check_ingestion_failed_fixed_message
    (listJobs : String → String → List IngestionJob)
    (userKbTable : List UserKbRecord) (tbl : List DocumentRecord)
    (user_id : String) (kb : UserKbRecord) (j : IngestionJob) (d : DocumentRecord)
    (hkb : getUserKb userKbTable user_id = some kb)
    (hj : j ∈ listJobs kb.knowledge_base_id kb.data_source_id)
    (hst : j.status = "FAILED")
    (huniq : ∀ j' ∈ listJobs kb.knowledge_base_id kb.data_source_id,
        j'.ingestionJobId = j.ingestionJobId → j' = j)
    (hd : getDoc tbl d.document_id = some d)
    (hjob : d.ingestion_job_id = some j.ingestionJobId)
    (hproc : d.sync_status = "processing") :
    (getDoc (check_ingestion_status listJobs userKbTable tbl user_id).2
        d.document_id).map (fun x => (x.sync_status, x.message, x.error_message))
      = some ("failed", "Knowledge Base ingestion failed", d.error_message) := by
  simp only [check_ingestion_status, hkb]
  rw [runJobs_fst, getDoc_map_foldDoc, hd]
  rw [Option.map_some']
  rw [foldDoc_failed_job (listJobs kb.knowledge_base_id kb.data_source_id) j d
    hj hst huniq hjob hproc]
  rfl

/-- Witness for the amended C5 at the concrete FAILED job and processing
document. -/
theorem check_ingestion_failed_fixed_message_witness :
    getUserKb [mkKb "u1" "kb1" "ds1" "h1" 0] "u1" = some (mkKb "u1" "kb1" "ds1" "h1" 0)
    ∧ exJobFail ∈ [exJobFail]
    ∧ exJobFail.status = "FAILED"
    ∧ (∀ j' ∈ [exJobFail], j'.ingestionJobId = exJobFail.ingestionJobId → j' = exJobFail)
    ∧ getDoc [exDocProc] exDocProc.document_id = some exDocProc
    ∧ exDocProc.ingestion_job_id = some exJobFail.ingestionJobId
    ∧ exDocProc.sync_status = "processing"
    ∧ (getDoc (check_ingestion_status (fun _ _ => [exJobFail])
          [mkKb "u1" "kb1" "ds1" "h1" 0] [exDocProc] "u1").2
        exDocProc.document_id).map (fun x => (x.sync_status, x.message, x.error_message))
      = some ("failed", "Knowledge Base ingestion failed", exDocProc.error_message) :=
  ⟨by rfl, by simp, by rfl, by simp, by rfl, by rfl, by rfl,
    check_ingestion_failed_fixed_message (fun _ _ => [exJobFail])
      [mkKb "u1" "kb1" "ds1" "h1" 0] [exDocProc] "u1" (mkKb "u1" "kb1" "ds1" "h1" 0)
      exJobFail exDocProc (by rfl) (by simp) (by rfl) (by simp) (by rfl) (by rfl) (by rfl)⟩

/-! ## Claim C6 -/

/-- Claim C6: running the reconciler twice in a row against the same job
listing updates zero additional documents the second time: the second pass
returns updated_count zero and leaves the table exactly as the first pass
left it, because documents moved to a terminal state are never matched
again. -/
theorem check_ingestion_idempotent (listJobs : String → String → List IngestionJob)
    (userKbTable : List UserKbRecord) (tbl : List DocumentRecord)
    (user_id : String) (kb : UserKbRecord)
    (hkb : getUserKb userKbTable user_id = some kb) :
    (check_ingestion_status listJobs userKbTable
        (check_ingestion_status listJobs userKbTable tbl user_id).2 user_id).2
      = (check_ingestion_status listJobs userKbTable tbl user_id).2
    ∧ (check_ingestion_status listJobs userKbTable
        (check_ingestion_status listJobs userKbTable tbl user_id).2 user_id).1
      = some 0 := by
  simp only [check_ingestion_status, hkb]
  constructor
  · rw [runJobs_fst, runJobs_fst, List.map_map]
    exact List.map_congr_left (fun d _ => foldDoc_idem _ d)
  · rw [runJobs_snd, runJobs_fst, List.map_map]
    have : ((tbl.map (countDoc (listJobs kb.knowledge_base_id kb.data_source_id) ∘
        foldDoc (listJobs kb.knowledge_base_id kb.data_source_id)))).sum = 0 := by
      apply List.sum_eq_zero
      intro x hx
      rcases List.mem_map.mp hx with ⟨d, _, h⟩
      rw [← h]
      exact countDoc_foldDoc _ d
    rw [this]

/-- Witness for C6: one COMPLETE job and one processing document; the first
pass updates the document, the second changes nothing and counts zero. -/
theorem check_ingestion_idempotent_witness :
    getUserKb [mkKb "u1" "kb1" "ds1" "h1" 0] "u1" = some (mkKb "u1" "kb1" "ds1" "h1" 0)
    ∧ ((check_ingestion_status (fun _ _ => [exJobDone]) [mkKb "u1" "kb1" "ds1" "h1" 0]
          (check_ingestion_status (fun _ _ => [exJobDone]) [mkKb "u1" "kb1" "ds1" "h1" 0]
            [exDocProc] "u1").2 "u1").2
        = (check_ingestion_status (fun _ _ => [exJobDone]) [mkKb "u1" "kb1" "ds1" "h1" 0]
            [exDocProc] "u1").2
      ∧ (check_ingestion_status (fun _ _ => [exJobDone]) [mkKb "u1" "kb1" "ds1" "h1" 0]
          (check_ingestion_status (fun _ _ => [exJobDone]) [mkKb "u1" "kb1" "ds1" "h1" 0]
            [exDocProc] "u1").2 "u1").1
        = some 0) :=
  ⟨by rfl,
    check_ingestion_idempotent (fun _ _ => [exJobDone]) [mkKb "u1" "kb1" "ds1" "h1" 0]
      [exDocProc] "u1" (mkKb "u1" "kb1" "ds1" "h1" 0) (by rfl)⟩

/-! ## Claim C9 -/

/-- Claim C9: the updated_count returned by the reconciler equals exactly
the number of documents newly in status completed (the count of completed
documents after the pass minus the count before); documents a FAILED job
moves to failed are updated but never counted. -/
theorem updated_count_counts_only_completed
    (listJobs : String → String → List IngestionJob)
    (userKbTable : List UserKbRecord) (tbl : List DocumentRecord)
    (user_id : String) (kb : UserKbRecord)
    (hkb : getUserKb userKbTable user_id = some kb) :
    (tbl.filter (fun d => d.sync_status == "completed")).length
      ≤ (((check_ingestion_status listJobs userKbTable tbl user_id).2).filter
          (fun d => d.sync_status == "completed")).length
    ∧ (check_ingestion_status listJobs userKbTable tbl user_id).1
      = some ((((check_ingestion_status listJobs userKbTable tbl user_id).2).filter
            (fun d => d.sync_status == "completed")).length
          - (tbl.filter (fun d => d.sync_status == "completed")).length) := by
  simp only [check_ingestion_status, hkb]
  generalize listJobs kb.knowledge_base_id kb.data_source_id = js
  have e1 : (tbl.map (fun d =>
      countDoc js d + (if d.sync_status == "completed" then 1 else 0))).sum
      = (tbl.map (fun d =>
          if (foldDoc js d).sync_status == "completed" then 1 else 0)).sum := by
    congr 1
    exact List.map_congr_left (fun d _ => countDoc_delta js d)
  have e2 := sum_map_add (fun d => countDoc js d)
    (fun d => if d.sync_status == "completed" then 1 else 0) tbl
  have e3 : (tbl.map (fun d =>
      if (foldDoc js d).sync_status == "completed" then 1 else 0)).sum
      = ((tbl.map (foldDoc js)).filter (fun d => d.sync_status == "completed")).length := by
    rw [← sum_indicator_eq_length_filter, List.map_map]
    rfl
  have e4 := sum_indicator_eq_length_filter (fun d => d.sync_status == "completed") tbl
  have key : (runJobs js tbl).2
      + (tbl.filter (fun d => d.sync_status == "completed")).length
      = ((runJobs js tbl).1.filter (fun d => d.sync_status == "completed")).length := by
    rw [runJobs_snd, runJobs_fst, ← e4, ← e3, ← e1, e2]
  refine ⟨by omega, ?_⟩
  have h2 : (runJobs js tbl).2
      = ((runJobs js tbl).1.filter (fun d => d.sync_status == "completed")).length
        - (tbl.filter (fun d => d.sync_status == "completed")).length := by omega
  rw [h2]

/-- Witness for C9: a COMPLETE job and a FAILED job, one processing document
for each; only the completed transition is counted. -/
theorem updated_count_counts_only_completed_witness :
    getUserKb [mkKb "u1" "kb1" "ds1" "h1" 0] "u1" = some (mkKb "u1" "kb1" "ds1" "h1" 0)
    ∧ (([exDocProc, mkDoc "d2" "u1" "docs/h1/d2/f.pdf" "processing" (some "j2")].filter
          (fun d => d.sync_status == "completed")).length
        ≤ (((check_ingestion_status
              (fun _ _ => [exJobDone, IngestionJob.mk "j2" "FAILED" ["boom"]])
              [mkKb "u1" "kb1" "ds1" "h1" 0]
              [exDocProc, mkDoc "d2" "u1" "docs/h1/d2/f.pdf" "processing" (some "j2")]
              "u1").2).filter (fun d => d.sync_status == "completed")).length
      ∧ (check_ingestion_status
            (fun _ _ => [exJobDone, IngestionJob.mk "j2" "FAILED" ["boom"]])
            [mkKb "u1" "kb1" "ds1" "h1" 0]
            [exDocProc, mkDoc "d2" "u1" "docs/h1/d2/f.pdf" "processing" (some "j2")]
            "u1").1
        = some ((((check_ingestion_status
              (fun _ _ => [exJobDone, IngestionJob.mk "j2" "FAILED" ["boom"]])
              [mkKb "u1" "kb1" "ds1" "h1" 0]
              [exDocProc, mkDoc "d2" "u1" "docs/h1/d2/f.pdf" "processing" (some "j2")]
              "u1").2).filter (fun d => d.sync_status == "completed")).length
            - (([exDocProc, mkDoc "d2" "u1" "docs/h1/d2/f.pdf" "processing" (some "j2")].filter
                (fun d => d.sync_status == "completed")).length))) :=
  ⟨by rfl,
    updated_count_counts_only_completed
      (fun _ _ => [exJobDone, IngestionJob.mk "j2" "FAILED" ["boom"]])
      [mkKb "u1" "kb1" "ds1" "h1" 0]
      [exDocProc, mkDoc "d2" "u1" "docs/h1/d2/f.pdf" "processing" (some "j2")]
      "u1" (mkKb "u1" "kb1" "ds1" "h1" 0) (by rfl)⟩

/-! ## Migrator lemmas -/

theorem migrateItem_userKbTable (env : MigrateEnv) (h : String) (sys : Sys)
    (k : String) : (migrateItem env h sys k).userKbTable = sys.userKbTable := by
  simp only [migrateItem]
  split_ifs <;> rfl

theorem migrateItem_jobRequests (env : MigrateEnv) (h : String) (sys : Sys)
    (k : String) : (migrateItem env h sys k).jobRequests = sys.jobRequests := by
  simp only [migrateItem]
  split_ifs <;> rfl

theorem migrateFold_userKbTable (env : MigrateEnv) (h : String)
    (ks : List String) (sys : Sys) :
    (ks.foldl (migrateItem env h) sys).userKbTable = sys.userKbTable := by
  induction ks generalizing sys with
  | nil => rfl
  | cons k ks ih =>
    simp only [List.foldl_cons]
    rw [ih, migrateItem_userKbTable]

theorem migrateFold_jobRequests (env : MigrateEnv) (h : String)
    (ks : List String) (sys : Sys) :
    (ks.foldl (migrateItem env h) sys).jobRequests = sys.jobRequests := by
  induction ks generalizing sys with
  | nil => rfl
  | cons k ks ih =>
    simp only [List.foldl_cons]
    rw [ih, migrateItem_jobRequests]

theorem migrateItem_skip (env : MigrateEnv) (h : String) (sys : Sys) (k : String)
    (hk : itemActs env k = false) : migrateItem env h sys k = sys := by
  unfold itemActs at hk
  unfold migrateItem
  by_cases h1 : (splitSlash k).length < 4
  · rw [if_pos h1]
  · rw [if_neg h1]
    have h2 : env.copyRaises k = true := by
      simp [h1] at hk
      exact hk
    rw [if_pos h2]

/-- Continue-on-error: a run of the migration loop is exactly the run over
only the items that actually migrate — skipped and failing items contribute
nothing and do not disturb the rest. -/
theorem migrateFold_filter (env : MigrateEnv) (h : String) (ks : List String)
    (sys : Sys) :
    ks.foldl (migrateItem env h) sys
      = (ks.filter (itemActs env)).foldl (migrateItem env h) sys := by
  induction ks generalizing sys with
  | nil => rfl
  | cons k ks ih =>
    cases hk : itemActs env k with
    | true =>
      simp only [List.foldl_cons, List.filter_cons, hk, if_true]
      exact ih _
    | false =>
      simp only [List.foldl_cons, List.filter_cons, hk,
        migrateItem_skip env h sys k hk]
      exact ih sys

/-! ## Claim C4 -/

/-- Claim C4 counterexample: two pending blobs, the migration of the first
raises; only one document is actually migrated (d1 keeps its pending blob
and its old status, d2 is migrated), yet document_count is incremented by 2
— the number of pending blobs listed, not the number actually migrated. -/
theorem process_pending_overcounts_on_failure :
    (getUserKb (process_pending_documents exMigEnv exSysMig "u1"
        (mkKb "u1" "kb1" "ds1" "h1" 0)).userKbTable "u1").map
          (fun r => r.document_count) = some 2
    ∧ (getDoc (process_pending_documents exMigEnv exSysMig "u1"
        (mkKb "u1" "kb1" "ds1" "h1" 0)).documentsTable "d1").map
          (fun d => d.sync_status) = some "creating_knowledge_base"
    ∧ ((process_pending_documents exMigEnv exSysMig "u1"
        (mkKb "u1" "kb1" "ds1" "h1" 0)).s3Keys.contains "pending/u1/d1/a.pdf") = true
    ∧ (getDoc (process_pending_documents exMigEnv exSysMig "u1"
        (mkKb "u1" "kb1" "ds1" "h1" 0)).documentsTable "d2").map
          (fun d => d.sync_status) = some "ready_for_ingestion"
    ∧ (2 : Int) ≠ 1 :=
  ⟨by rfl, by rfl, by rfl, by rfl, by decide⟩

/-- Claim C4 amended: for a tenant with at least one pending blob, the
migrator triggers exactly one batched ingestion job after the per-item loop,
increments document_count by the number of pending blobs listed — including
those whose migration failed — and a per-item failure does not abort the
remaining items: the loop behaves exactly as the loop over the successfully
migrating items alone. -/
theorem process_pending_batched_job_and_count (env : MigrateEnv) (sys : Sys)
    (user_id : String) (kb : UserKbRecord) (r0 : UserKbRecord)
    (hne : sys.s3Keys.filter
        (fun k => strStartsWith k ("pending/" ++ user_id ++ "/")) ≠ [])
    (hing : env.ingestRaises = false)
    (hr0 : getUserKb sys.userKbTable user_id = some r0) :
    (process_pending_documents env sys user_id kb).jobRequests
      = sys.jobRequests ++
        [{ knowledge_base_id := kb.knowledge_base_id
           data_source_id := kb.data_source_id
           description := "pending_documents_batch" }]
    ∧ getUserKb (process_pending_documents env sys user_id kb).userKbTable user_id
      = some { r0 with document_count := r0.document_count
          + ((sys.s3Keys.filter
              (fun k => strStartsWith k ("pending/" ++ user_id ++ "/"))).length : Int) }
    ∧ (sys.s3Keys.filter
          (fun k => strStartsWith k ("pending/" ++ user_id ++ "/"))).foldl
        (migrateItem env kb.user_hash) sys
      = ((sys.s3Keys.filter
            (fun k => strStartsWith k ("pending/" ++ user_id ++ "/"))).filter
          (itemActs env)).foldl (migrateItem env kb.user_hash) sys := by
  have hpe : (sys.s3Keys.filter
      (fun k => strStartsWith k ("pending/" ++ user_id ++ "/"))).isEmpty = false := by
    cases h : sys.s3Keys.filter (fun k => strStartsWith k ("pending/" ++ user_id ++ "/")) with
    | nil => exact absurd h hne
    | cons a l => rfl
  refine ⟨?_, ?_, migrateFold_filter env kb.user_hash _ sys⟩
  · simp only [process_pending_documents, hpe, hing, Bool.false_eq_true, if_false]
    rw [migrateFold_jobRequests]
  · simp only [process_pending_documents, hpe, hing, Bool.false_eq_true, if_false]
    rw [migrateFold_userKbTable, getUserKb_addDocumentCount, hr0]
    rfl

/-- Witness for the amended C4 at the concrete two-blob state with one
failing item. -/
theorem process_pending_batched_job_and_count_witness :
    exSysMig.s3Keys.filter (fun k => strStartsWith k ("pending/" ++ "u1" ++ "/")) ≠ []
    ∧ exMigEnv.ingestRaises = false
    ∧ getUserKb exSysMig.userKbTable "u1" = some (mkKb "u1" "kb1" "ds1" "h1" 0)
    ∧ ((process_pending_documents exMigEnv exSysMig "u1"
          (mkKb "u1" "kb1" "ds1" "h1" 0)).jobRequests
        = exSysMig.jobRequests ++
          [{ knowledge_base_id := (mkKb "u1" "kb1" "ds1" "h1" 0).knowledge_base_id
             data_source_id := (mkKb "u1" "kb1" "ds1" "h1" 0).data_source_id
             description := "pending_documents_batch" }]
      ∧ getUserKb (process_pending_documents exMigEnv exSysMig "u1"
            (mkKb "u1" "kb1" "ds1" "h1" 0)).userKbTable "u1"
        = some { mkKb "u1" "kb1" "ds1" "h1" 0 with
            document_count := (mkKb "u1" "kb1" "ds1" "h1" 0).document_count
              + ((exSysMig.s3Keys.filter
                  (fun k => strStartsWith k ("pending/" ++ "u1" ++ "/"))).length : Int) }
      ∧ (exSysMig.s3Keys.filter
            (fun k => strStartsWith k ("pending/" ++ "u1" ++ "/"))).foldl
          (migrateItem exMigEnv (mkKb "u1" "kb1" "ds1" "h1" 0).user_hash) exSysMig
        = ((exSysMig.s3Keys.filter
              (fun k => strStartsWith k ("pending/" ++ "u1" ++ "/"))).filter
            (itemActs exMigEnv)).foldl
          (migrateItem exMigEnv (mkKb "u1" "kb1" "ds1" "h1" 0).user_hash) exSysMig) :=
  ⟨by decide, by rfl, by rfl,
    process_pending_batched_job_and_count exMigEnv exSysMig "u1"
      (mkKb "u1" "kb1" "ds1" "h1" 0) (mkKb "u1" "kb1" "ds1" "h1" 0)
      (by decide) (by rfl) (by rfl)⟩

/-! ## Claim C10 -/

theorem getUserKb_putUserKb_of (tbl : List UserKbRecord) (r : UserKbRecord)
    (uid : String) (h : r.user_id = uid) :
    getUserKb (putUserKb tbl r) uid = some r := by
  subst h
  exact getUserKb_putUserKb tbl r

/-- Claim C10: a fast-path upload never touches the user KB table, hence
leaves document_count unchanged (for any ingestion outcome); the slow-path
async handler is the one that increments it (by one, on success, on the
freshly stored record), and the pending-upload migrator is the other (by
the number of listed pending blobs). -/
theorem fast_path_document_count_frame
    (fenv : FastPathEnv) (cenv : CreateProcessEnv) (menv envC : MigrateEnv)
    (sysA sysB sysC : Sys)
    (filenameA user_idA document_idA : String) (kbA : UserKbRecord)
    (user_id document_id filename temp_key job_id : String)
    (uidC : String) (kbC r0C : UserKbRecord)
    (hcr : cenv.createRaises = false)
    (hstart : cenv.startJob = Except.ok job_id)
    (hnp : sysB.s3Keys.filter
        (fun k => strStartsWith k ("pending/" ++ user_id ++ "/")) = [])
    (htemp : sysB.s3Keys.contains temp_key = true)
    (hneC : sysC.s3Keys.filter
        (fun k => strStartsWith k ("pending/" ++ uidC ++ "/")) ≠ [])
    (hingC : envC.ingestRaises = false)
    (hr0C : getUserKb sysC.userKbTable uidC = some r0C) :
    (process_with_existing_kb fenv sysA filenameA user_idA document_idA
        kbA).2.userKbTable = sysA.userKbTable
    ∧ (create_and_process_document cenv menv sysB user_id document_id filename
        temp_key).1 = true
    ∧ getUserKb (create_and_process_document cenv menv sysB user_id document_id
          filename temp_key).2.userKbTable user_id
      = some { cenv.fresh with
          user_id := user_id,
          document_count := 1,
          status := "active" }
    ∧ getUserKb (process_pending_documents envC sysC uidC kbC).userKbTable uidC
      = some { r0C with
          document_count := r0C.document_count
            + ((sysC.s3Keys.filter
                (fun k => strStartsWith k ("pending/" ++ uidC ++ "/"))).length : Int) } := by
  refine ⟨?_, ?_, ?_, ?_⟩
  · simp only [process_with_existing_kb, trigger_kb_ingestion]
    cases hsj : fenv.startJob <;> simp [hsj]
  · simp only [create_and_process_document, create_user_kb,
      process_pending_documents, kb_trigger_ingestion_job, hcr, hnp, htemp, hstart,
      List.isEmpty_nil, Bool.false_eq_true, if_false, if_true]
  · simp only [create_and_process_document, create_user_kb,
      process_pending_documents, kb_trigger_ingestion_job, hcr, hnp, htemp, hstart,
      List.isEmpty_nil, Bool.false_eq_true, if_false, if_true]
    rw [getUserKb_addDocumentCount, getUserKb_putUserKb_of _ _ _ rfl]
    simp
  · have hpe : (sysC.s3Keys.filter
        (fun k => strStartsWith k ("pending/" ++ uidC ++ "/"))).isEmpty = false := by
      cases h : sysC.s3Keys.filter (fun k => strStartsWith k ("pending/" ++ uidC ++ "/")) with
      | nil => exact absurd h hneC
      | cons a l => rfl
    simp only [process_pending_documents, hpe, hingC, Bool.false_eq_true, if_false]
    rw [migrateFold_userKbTable, getUserKb_addDocumentCount, hr0C]
    rfl

/-- Witness for C10: a fast-path upload whose ingestion call raises (the KB
table is untouched), a successful slow-path run incrementing the fresh
record to one, and a migrator run incrementing by the listed pending count. -/
theorem fast_path_document_count_frame_witness :
    exCpEnv.createRaises = false
    ∧ exCpEnv.startJob = Except.ok "j9"
    ∧ exSysSlow.s3Keys.filter
        (fun k => strStartsWith k ("pending/" ++ "u2" ++ "/")) = []
    ∧ exSysSlow.s3Keys.contains "tmp/u2/d7/r.pdf" = true
    ∧ exSysMig.s3Keys.filter
        (fun k => strStartsWith k ("pending/" ++ "u1" ++ "/")) ≠ []
    ∧ exMigEnv.ingestRaises = false
    ∧ getUserKb exSysMig.userKbTable "u1" = some (mkKb "u1" "kb1" "ds1" "h1" 0)
    ∧ ((process_with_existing_kb (FastPathEnv.mk (Except.error "boom")) exSysDel
          "g.pdf" "u1" "dA" (mkKb "u1" "kb1" "ds1" "h1" 1)).2.userKbTable
        = exSysDel.userKbTable
      ∧ (create_and_process_document exCpEnv happyMigrate exSysSlow "u2" "d7" "r.pdf"
          "tmp/u2/d7/r.pdf").1 = true
      ∧ getUserKb (create_and_process_document exCpEnv happyMigrate exSysSlow "u2" "d7"
            "r.pdf" "tmp/u2/d7/r.pdf").2.userKbTable "u2"
        = some { exCpEnv.fresh with
            user_id := "u2",
            document_count := 1,
            status := "active" }
      ∧ getUserKb (process_pending_documents exMigEnv exSysMig "u1"
            (mkKb "u1" "kb1" "ds1" "h1" 0)).userKbTable "u1"
        = some { mkKb "u1" "kb1" "ds1" "h1" 0 with
            document_count := (mkKb "u1" "kb1" "ds1" "h1" 0).document_count
              + ((exSysMig.s3Keys.filter
                  (fun k => strStartsWith k ("pending/" ++ "u1" ++ "/"))).length : Int) }) :=
  ⟨by rfl, by rfl, by rfl, by rfl, by decide, by rfl, by rfl,
    fast_path_document_count_frame (FastPathEnv.mk (Except.error "boom")) exCpEnv
      happyMigrate exMigEnv exSysDel exSysSlow exSysMig
      "g.pdf" "u1" "dA" (mkKb "u1" "kb1" "ds1" "h1" 1)
      "u2" "d7" "r.pdf" "tmp/u2/d7/r.pdf" "j9"
      "u1" (mkKb "u1" "kb1" "ds1" "h1" 0) (mkKb "u1" "kb1" "ds1" "h1" 0)
      (by rfl) (by rfl) (by rfl) (by rfl) (by decide) (by rfl) (by rfl)⟩
